import Mathlib

/-!
Verification of the clutter actor core (clutter-actor.c) against its
natural-language specification.  The C source is shallowly embedded:
fixed-point numbers are `Int` with explicit scaling, the cogl backend
calls made by the transform composer are reified as a small operation
language, signal emission is reified as an emission log, and the
idle-based redraw scheduler is a small state machine.
-/

/-! ## Fixed-point numeric type and unit conversions

The fixed-point header (clutter-fixed.h) and unit header (clutter-units.h)
are not part of the sources under study; the definitions below are
modelled from the spec (section 4.1): a 16.16 fixed-point value carried in
an `Int`, with a full-precision multiply truncated after the intermediate
product, and conversions to and from integer pixel units. -/

/-- Modelled from the spec: fixed-point one (16.16 representation),
standing in for the missing clutter-fixed.h `CFX_ONE`. -/
def CFX_ONE : Int := 65536

/-- Modelled from the spec: quality fixed-point multiply, full-precision
intermediate product then truncation (arithmetic shift right by 16,
i.e. floor division), standing in for the missing `CFX_QMUL`. -/
def CFX_QMUL (a b : Int) : Int := Int.fdiv (a * b) 65536

/-- Modelled from the spec: fixed-point multiply, standing in for the
missing `CFX_MUL`. -/
def CFX_MUL (a b : Int) : Int := Int.fdiv (a * b) 65536

/-- Modelled from the spec: fixed-point divide, standing in for the
missing `CFX_DIV`. -/
def CFX_DIV (a b : Int) : Int := Int.fdiv (a * 65536) b

/-- Modelled from the spec: conversion from ClutterUnits to integer
pixels, standing in for the missing `CLUTTER_UNITS_TO_INT`. -/
def CLUTTER_UNITS_TO_INT (u : Int) : Int := Int.fdiv u 1024

/-- Modelled from the spec: conversion from integer pixels to
ClutterUnits, standing in for the missing `CLUTTER_UNITS_FROM_INT`. -/
def CLUTTER_UNITS_FROM_INT (x : Int) : Int := x * 1024

/-- Modelled from the spec: conversion from device pixels to
ClutterUnits, standing in for the missing `CLUTTER_UNITS_FROM_DEVICE`. -/
def CLUTTER_UNITS_FROM_DEVICE (x : Int) : Int := x * 1024

/-! ## Data model: ClutterActorBox, ClutterGeometry, ClutterActorPrivate -/

/-- `ClutterActorBox`: untransformed bounding box in ClutterUnits. -/
structure ClutterActorBox where
  x1 : Int
  y1 : Int
  x2 : Int
  y2 : Int
deriving DecidableEq, Repr

/-- `ClutterGeometry`: rectangle in pixels (used for the clip). -/
structure ClutterGeometry where
  x : Int
  y : Int
  width : Int
  height : Int
deriving DecidableEq, Repr

/-- `ClutterActorPrivate`: the per-actor instance state declared in
clutter-actor.c. -/
structure ClutterActorPrivate where
  coords : ClutterActorBox
  clip : ClutterGeometry
  has_clip : Bool
  /-- rotation angles (ClutterFixed) -/
  rxang : Int
  ryang : Int
  rzang : Int
  /-- rotation centers -/
  rzx : Int
  rzy : Int
  rxy : Int
  rxz : Int
  ryx : Int
  ryz : Int
  /-- depth -/
  z : Int
  opacity : Nat
  scale_x : Int
  scale_y : Int
  id : Nat
  anchor_x : Int
  anchor_y : Int
deriving DecidableEq, Repr

/-- A `ClutterActor` as the claims observe it: private state plus the
REALIZED and MAPPED flags. -/
structure ClutterActor where
  priv : ClutterActorPrivate
  realized : Bool
  mapped : Bool
deriving DecidableEq, Repr

/-- `CLUTTER_ACTOR_IS_VISIBLE`: realized and mapped. -/
def CLUTTER_ACTOR_IS_VISIBLE (a : ClutterActor) : Bool :=
  a.realized && a.mapped

/-! ## C4: opacity inheritance (clutter_actor_get_opacity)

The parent chain of an actor is embedded as the list of the stored
opacities of its ancestors, nearest parent first. -/

/-- `clutter_actor_get_opacity`: the stored opacity of the actor combined
with the ancestors' effective opacities.  Direct translation of the C:
if there is a parent whose effective opacity is not 0xff, return
`parent_effective * own / 0xff`, otherwise return the stored opacity. -/
def clutter_actor_get_opacity (own : Nat) : List Nat → Nat
  | [] => own
  | p :: ps =>
    if clutter_actor_get_opacity p ps ≠ 255 then
      clutter_actor_get_opacity p ps * own / 255
    else
      own

/-- The spec's wording of effective opacity: the stepwise multiplicative
chain, at each step `parent_effective * own / 255`, applied
unconditionally. -/
def spec_effective_opacity (own : Nat) : List Nat → Nat
  | [] => own
  | p :: ps => spec_effective_opacity p ps * own / 255

/-! ## C5: picking encoder (clutter_actor_paint, pick branch) -/

/-- The pick-mode color encoding from `clutter_actor_paint`: the actor id
is split across the red, green and blue channels according to the channel
bit-depths `(r, g, b)` and shifted into each channel's most significant
bits.  Direct translation of the C expressions. -/
def clutter_pick_encode (r g b : Nat) (id : Nat) : Nat × Nat × Nat :=
  (((id >>> (g + b)) &&& (0xff >>> (8 - r))) <<< (8 - r),
   ((id >>> b) &&& (0xff >>> (8 - g))) <<< (8 - g),
   (id &&& (0xff >>> (8 - b))) <<< (8 - b))

/-- Modelled from the spec: the decoder run by the collaborator that
reads back a rendered pixel (not in the sources under study).  It undoes
the per-channel shifts and reassembles the identifier's bit fields. -/
def spec_pick_decode (r g b : Nat) (c : Nat × Nat × Nat) : Nat :=
  ((c.1 >>> (8 - r)) <<< (g + b)) + ((c.2.1 >>> (8 - g)) <<< b) +
    (c.2.2 >>> (8 - b))

/-! ## C1, C2: the per-node transform composer and the recursive
accumulator

The cogl calls issued by `_clutter_actor_apply_modelview_transform` are
reified as a list of operations. -/

/-- One backend call made by the transform composer: `cogl_translate`,
`cogl_scale`, `cogl_rotatex` (angle plus axis vector) or
`cogl_clip_set`. -/
inductive CoglOp where
  | translate (x y z : Int)
  | scale (sx sy : Int)
  | rotatex (angle ax ay az : Int)
  | clip_set (c : ClutterGeometry)
deriving DecidableEq, Repr

/-- `_clutter_actor_apply_modelview_transform`: the exact sequence of
backend calls made for one actor, given its private state and whether
`clutter_actor_get_parent` returned a parent.  Direct translation of the
C function, including every guard. -/
def clutter_actor_apply_modelview_transform
    (priv : ClutterActorPrivate) (hasParent : Bool) : List CoglOp :=
  (if hasParent then
    [CoglOp.translate (CLUTTER_UNITS_TO_INT priv.coords.x1)
      (CLUTTER_UNITS_TO_INT priv.coords.y1) 0]
   else []) ++
  (if priv.scale_x ≠ CFX_ONE ∨ priv.scale_y ≠ CFX_ONE then
    [CoglOp.scale priv.scale_x priv.scale_y]
   else []) ++
  (if hasParent ∧ (priv.anchor_x ≠ 0 ∨ priv.anchor_y ≠ 0) then
    [CoglOp.translate (CLUTTER_UNITS_TO_INT (-priv.anchor_x))
      (CLUTTER_UNITS_TO_INT (-priv.anchor_y)) 0]
   else []) ++
  (if priv.rzang ≠ 0 then
    [CoglOp.translate priv.rzx priv.rzy 0,
     CoglOp.rotatex priv.rzang 0 0 CFX_ONE,
     CoglOp.translate (-priv.rzx) (-priv.rzy) 0]
   else []) ++
  (if priv.ryang ≠ 0 then
    [CoglOp.translate priv.ryx 0 (priv.z + priv.ryz),
     CoglOp.rotatex priv.ryang 0 CFX_ONE 0,
     CoglOp.translate (-priv.ryx) 0 (-(priv.z + priv.ryz))]
   else []) ++
  (if priv.rxang ≠ 0 then
    [CoglOp.translate 0 priv.rxy (priv.z + priv.rxz),
     CoglOp.rotatex priv.rxang CFX_ONE 0 0,
     CoglOp.translate 0 (-priv.rxy) (-(priv.z + priv.rxz))]
   else []) ++
  (if priv.z ≠ 0 then [CoglOp.translate 0 0 priv.z] else []) ++
  (if priv.has_clip then [CoglOp.clip_set priv.clip] else [])

/-- The claim's wording of the per-node composer: the same ordered
sequence, but with the scale step applied unconditionally (the claim
states no guard on the scale). -/
def spec_transform_ops
    (priv : ClutterActorPrivate) (hasParent : Bool) : List CoglOp :=
  (if hasParent then
    [CoglOp.translate (CLUTTER_UNITS_TO_INT priv.coords.x1)
      (CLUTTER_UNITS_TO_INT priv.coords.y1) 0]
   else []) ++
  [CoglOp.scale priv.scale_x priv.scale_y] ++
  (if hasParent ∧ (priv.anchor_x ≠ 0 ∨ priv.anchor_y ≠ 0) then
    [CoglOp.translate (CLUTTER_UNITS_TO_INT (-priv.anchor_x))
      (CLUTTER_UNITS_TO_INT (-priv.anchor_y)) 0]
   else []) ++
  (if priv.rzang ≠ 0 then
    [CoglOp.translate priv.rzx priv.rzy 0,
     CoglOp.rotatex priv.rzang 0 0 CFX_ONE,
     CoglOp.translate (-priv.rzx) (-priv.rzy) 0]
   else []) ++
  (if priv.ryang ≠ 0 then
    [CoglOp.translate priv.ryx 0 (priv.z + priv.ryz),
     CoglOp.rotatex priv.ryang 0 CFX_ONE 0,
     CoglOp.translate (-priv.ryx) 0 (-(priv.z + priv.ryz))]
   else []) ++
  (if priv.rxang ≠ 0 then
    [CoglOp.translate 0 priv.rxy (priv.z + priv.rxz),
     CoglOp.rotatex priv.rxang CFX_ONE 0 0,
     CoglOp.translate 0 (-priv.rxy) (-(priv.z + priv.rxz))]
   else []) ++
  (if priv.z ≠ 0 then [CoglOp.translate 0 0 priv.z] else []) ++
  (if priv.has_clip then [CoglOp.clip_set priv.clip] else [])

/-- 4x4 matrices over the rationals, the semantic domain in which the
backend operation sequences are interpreted. -/
abbrev Mat4 : Type := Matrix (Fin 4) (Fin 4) ℚ

/-- Semantics of `cogl_translate`: the homogeneous translation matrix. -/
def translationMat (x y z : Int) : Mat4 :=
  Matrix.of ![![1, 0, 0, (x : ℚ)], ![0, 1, 0, (y : ℚ)],
              ![0, 0, 1, (z : ℚ)], ![0, 0, 0, 1]]

/-- Semantics of `cogl_scale`: the diagonal scale matrix; the fixed-point
factors are divided by `CFX_ONE` to recover the rational scale. -/
def scaleMat (sx sy : Int) : Mat4 :=
  Matrix.of ![![(sx : ℚ) / 65536, 0, 0, 0], ![0, (sy : ℚ) / 65536, 0, 0],
              ![0, 0, 1, 0], ![0, 0, 0, 1]]

/-- Interpretation of one backend call as a matrix.  Rotation and the
clip render-state push are backend-owned, so their interpretations are
parameters. -/
def interpOp (rotI : Int → Int → Int → Int → Mat4)
    (clipI : ClutterGeometry → Mat4) : CoglOp → Mat4
  | .translate x y z => translationMat x y z
  | .scale sx sy => scaleMat sx sy
  | .rotatex a x y z => rotI a x y z
  | .clip_set c => clipI c

/-- Interpretation of a backend call sequence: the ordered product of the
interpretations of its calls. -/
def denoteOps (rotI : Int → Int → Int → Int → Mat4)
    (clipI : ClutterGeometry → Mat4) (l : List CoglOp) : Mat4 :=
  (l.map (interpOp rotI clipI)).prod

/-- `_clutter_actor_apply_modelview_transform_recursive` over an actor's
parent chain: the actor is embedded as its own private state consed onto
the private states of its ancestors, nearest parent first.  An actor has
a parent exactly when its ancestor list is nonempty.  Direct translation
of the C recursion: accumulate the parent first, then apply this node's
composer. -/
def clutter_actor_apply_modelview_transform_recursive :
    List ClutterActorPrivate → List CoglOp
  | [] => []
  | p :: ps =>
    clutter_actor_apply_modelview_transform_recursive ps ++
      clutter_actor_apply_modelview_transform p (!ps.isEmpty)

/-- The spec's wording of the accumulator on the root-first ordering of
the chain: the root's composer (no parent) followed by each descendant's
composer (all of which have a parent), ancestors before descendants. -/
def spec_root_to_node_ops : List ClutterActorPrivate → List CoglOp
  | [] => []
  | root :: rest =>
    clutter_actor_apply_modelview_transform root false ++
      (rest.map (fun p => clutter_actor_apply_modelview_transform p true)).flatten

/-! ## C3: coordinate query API (clutter_actor_get_vertices)

The modelview matrix produced by the backend after the accumulator ran,
the projection matrix and the viewport are backend state, embedded here
as parameters.  A matrix is a column-major array of 16 fixed-point
values, as in the C. -/

/-- A 4x4 fixed-point matrix stored as the C array: `M(m,row,col)` reads
`m[col*4+row]`. -/
def M (m : Nat → Int) (row col : Nat) : Int := m (col * 4 + row)

/-- A homogeneous 4-vector of fixed-point coordinates (the `x, y, z, w`
locals threaded through `mtx_transform`). -/
structure HVec4 where
  x : Int
  y : Int
  z : Int
  w : Int
deriving DecidableEq, Repr

/-- `mtx_transform`: multiply the homogeneous vector by the matrix using
the quality fixed-point multiply.  Direct translation of the C. -/
def mtx_transform (m : Nat → Int) (v : HVec4) : HVec4 where
  x := CFX_QMUL (M m 0 0) v.x + CFX_QMUL (M m 0 1) v.y +
       CFX_QMUL (M m 0 2) v.z + CFX_QMUL (M m 0 3) v.w
  y := CFX_QMUL (M m 1 0) v.x + CFX_QMUL (M m 1 1) v.y +
       CFX_QMUL (M m 1 2) v.z + CFX_QMUL (M m 1 3) v.w
  z := CFX_QMUL (M m 2 0) v.x + CFX_QMUL (M m 2 1) v.y +
       CFX_QMUL (M m 2 2) v.z + CFX_QMUL (M m 2 3) v.w
  w := CFX_QMUL (M m 3 0) v.x + CFX_QMUL (M m 3 1) v.y +
       CFX_QMUL (M m 3 2) v.z + CFX_QMUL (M m 3 3) v.w

/-- `MTX_GL_SCALE_X`: clip space to device pixels on the X axis (`>> 1`
is the arithmetic shift, i.e. floor division by two). -/
def MTX_GL_SCALE_X (x w v1 v2 : Int) : Int :=
  CFX_MUL (Int.fdiv (CFX_DIV x w + CFX_ONE) 2) v1 + v2

/-- `MTX_GL_SCALE_Y`: same as X but with the extent flip (device Y grows
downward). -/
def MTX_GL_SCALE_Y (y w v1 v2 : Int) : Int :=
  v1 - CFX_MUL (Int.fdiv (CFX_DIV y w + CFX_ONE) 2) v1 + v2

/-- `MTX_GL_SCALE_Z`: identical to `MTX_GL_SCALE_X`. -/
def MTX_GL_SCALE_Z (z w v1 v2 : Int) : Int := MTX_GL_SCALE_X z w v1 v2

/-- The four values returned by `cogl_get_viewport`. -/
structure ClutterViewport where
  v0 : Int
  v1 : Int
  v2 : Int
  v3 : Int
deriving DecidableEq, Repr

/-- A screen-space vertex as returned to the caller. -/
structure ClutterVertex where
  x : Int
  y : Int
  z : Int
deriving DecidableEq, Repr

/-- The `verts[4]`/`w[4]` arrays filled by
`clutter_actor_transform_vertices`. -/
structure FourHVecs where
  u0 : HVec4
  u1 : HVec4
  u2 : HVec4
  u3 : HVec4
deriving DecidableEq, Repr

/-- `clutter_actor_transform_vertices`: transforms the four corners
`(0,0,0)`, `(x2-x1,0,0)`, `(0,y2-y1,0)`, `(x2-x1,y2-y1,0)` (each with
`w = CFX_ONE`) by the accumulated modelview matrix `mtx`.  Direct
translation of the C. -/
def clutter_actor_transform_vertices (mtx : Nat → Int)
    (coords : ClutterActorBox) : FourHVecs where
  u0 := mtx_transform mtx ⟨0, 0, 0, CFX_ONE⟩
  u1 := mtx_transform mtx ⟨coords.x2 - coords.x1, 0, 0, CFX_ONE⟩
  u2 := mtx_transform mtx ⟨0, coords.y2 - coords.y1, 0, CFX_ONE⟩
  u3 := mtx_transform mtx
    ⟨coords.x2 - coords.x1, coords.y2 - coords.y1, 0, CFX_ONE⟩

/-- The four screen vertices returned by `clutter_actor_get_vertices`. -/
structure FourVertices where
  v0 : ClutterVertex
  v1 : ClutterVertex
  v2 : ClutterVertex
  v3 : ClutterVertex
deriving DecidableEq, Repr

/-- Projection and device rescale of one already-modelview-transformed
vertex, as performed vertex by vertex inside
`clutter_actor_get_vertices`. -/
def clutter_project_vertex (mtx_p : Nat → Int) (v : ClutterViewport)
    (u : HVec4) : ClutterVertex :=
  let t := mtx_transform mtx_p u
  { x := MTX_GL_SCALE_X t.x t.w v.v2 v.v0
    y := MTX_GL_SCALE_Y t.y t.w v.v3 v.v1
    z := MTX_GL_SCALE_Z t.z t.w v.v2 v.v0 }

/-- `clutter_actor_get_vertices`: modelview-transform the four corners,
then push each through the projection matrix and the device rescale.
Direct translation of the C. -/
def clutter_actor_get_vertices (mtx mtx_p : Nat → Int)
    (v : ClutterViewport) (coords : ClutterActorBox) : FourVertices :=
  let verts := clutter_actor_transform_vertices mtx coords
  { v0 := clutter_project_vertex mtx_p v verts.u0
    v1 := clutter_project_vertex mtx_p v verts.u1
    v2 := clutter_project_vertex mtx_p v verts.u2
    v3 := clutter_project_vertex mtx_p v verts.u3 }

/-- The spec's wording of `getVertices`: each of the four local corners
`(0,0)`, `(w,0)`, `(0,h)`, `(w,h)` is independently pushed through
modelview, then projection, then device rescale. -/
def spec_corner_to_device (mtx mtx_p : Nat → Int) (v : ClutterViewport)
    (corner : Int × Int) : ClutterVertex :=
  clutter_project_vertex mtx_p v
    (mtx_transform mtx ⟨corner.1, corner.2, 0, CFX_ONE⟩)

/-! ## C6: event dispatch (clutter_actor_event)

Signal emission is embedded as a pure handler table `emit` plus a log of
the signals emitted during one dispatch. -/

/-- The event types of `ClutterEventType` handled by the dispatch
switch. -/
inductive ClutterEventType where
  | nothing
  | button_press
  | button_release
  | scroll
  | key_press
  | key_release
  | motion
  | enter
  | leave
  | delete
  | destroy_notify
  | client_message
deriving DecidableEq, Repr

/-- The actor signals involved in event dispatch. -/
inductive ActorSignal where
  | event
  | captured_event
  | button_press_event
  | button_release_event
  | scroll_event
  | key_press_event
  | key_release_event
  | motion_event
  | enter_event
  | leave_event
deriving DecidableEq, Repr

/-- The fixed event-type-to-signal mapping table (the `switch` in
`clutter_actor_event`); `none` is `signal_num = -1`. -/
def signal_for_event_type : ClutterEventType → Option ActorSignal
  | .nothing => none
  | .button_press => some .button_press_event
  | .button_release => some .button_release_event
  | .scroll => some .scroll_event
  | .key_press => some .key_press_event
  | .key_release => some .key_release_event
  | .motion => some .motion_event
  | .enter => some .enter_event
  | .leave => some .leave_event
  | .delete => none
  | .destroy_notify => none
  | .client_message => none

/-- `clutter_actor_event`: dispatch one event on an actor.  `emit s` is
the handled/unhandled result of emitting signal `s` on the actor; the
returned list is the log of the signals emitted, in order.  Direct
translation of the C. -/
def clutter_actor_event (emit : ActorSignal → Bool)
    (t : ClutterEventType) (capture : Bool) : Bool × List ActorSignal :=
  if capture then
    (emit ActorSignal.captured_event, [ActorSignal.captured_event])
  else
    let retval := emit ActorSignal.event
    if retval then
      (retval, [ActorSignal.event])
    else
      match signal_for_event_type t with
      | some s => (emit s, [ActorSignal.event, s])
      | none => (retval, [ActorSignal.event])

/-! ## C7, C10: property setters and their observable effects

Each setter returns the updated actor together with the property
notifications it emitted, whether it queued a redraw, and whether it
asked the parent container to resort its depth order. -/

/-- The observable outcome of one property setter call. -/
structure SetterResult where
  actor : ClutterActor
  notified : List String
  redraw : Bool
  resort : Bool
deriving DecidableEq, Repr

/-- `clutter_actor_request_coords`: stores the new box (via the base
class `request_coords`) and queues redraw / notifies only when the
position or size actually changed.  Direct translation of the C. -/
def clutter_actor_request_coords (self : ClutterActor)
    (box : ClutterActorBox) : SetterResult :=
  let x_change : Bool := self.priv.coords.x1 != box.x1
  let y_change : Bool := self.priv.coords.y1 != box.y1
  let width_change : Bool :=
    (self.priv.coords.x2 - self.priv.coords.x1) != (box.x2 - box.x1)
  let height_change : Bool :=
    (self.priv.coords.y2 - self.priv.coords.y1) != (box.y2 - box.y1)
  if x_change || y_change || width_change || height_change then
    { actor := { self with priv := { self.priv with coords := box } }
      notified :=
        (if x_change then ["x"] else []) ++
        (if y_change then ["y"] else []) ++
        (if width_change then ["width"] else []) ++
        (if height_change then ["height"] else [])
      redraw := CLUTTER_ACTOR_IS_VISIBLE self
      resort := false }
  else
    { actor := self, notified := [], redraw := false, resort := false }

/-- `clutter_actor_set_scalex`: stores both scale factors, notifies
`scale-x` and `scale-y` unconditionally, and queues a redraw whenever the
actor is visible.  Direct translation of the C (there is no equality
guard). -/
def clutter_actor_set_scalex (self : ClutterActor)
    (scale_x scale_y : Int) : SetterResult where
  actor :=
    { self with priv := { self.priv with scale_x := scale_x, scale_y := scale_y } }
  notified := ["scale-x", "scale-y"]
  redraw := CLUTTER_ACTOR_IS_VISIBLE self
  resort := false

/-- `clutter_actor_set_opacity`: stores the opacity and queues a redraw
whenever the actor is visible (no guard, no notification).  Direct
translation of the C. -/
def clutter_actor_set_opacity (self : ClutterActor) (opacity : Nat) :
    SetterResult where
  actor := { self with priv := { self.priv with opacity := opacity } }
  notified := []
  redraw := CLUTTER_ACTOR_IS_VISIBLE self
  resort := false

/-- `clutter_actor_set_depth`: guarded on `priv->z != depth`; on change
stores the depth, asks a container parent to resort, queues redraw when
visible, and notifies `depth`.  `parentIsContainer` embeds
`priv->parent_actor && CLUTTER_IS_CONTAINER (priv->parent_actor)`. -/
def clutter_actor_set_depth (self : ClutterActor) (depth : Int)
    (parentIsContainer : Bool) : SetterResult :=
  if self.priv.z != depth then
    { actor := { self with priv := { self.priv with z := depth } }
      notified := ["depth"]
      redraw := CLUTTER_ACTOR_IS_VISIBLE self
      resort := parentIsContainer }
  else
    { actor := self, notified := [], redraw := false, resort := false }

/-- `ClutterRotateAxis`. -/
inductive ClutterRotateAxis where
  | x_axis
  | y_axis
  | z_axis
deriving DecidableEq, Repr

/-- `clutter_actor_set_rotationx`: stores the angle and the two relevant
pivot coordinates for the given axis, then queues a redraw whenever the
actor is visible (no guard, no notification).  Direct translation of the
C. -/
def clutter_actor_set_rotationx (self : ClutterActor)
    (axis : ClutterRotateAxis) (angle x y z : Int) : SetterResult :=
  let priv :=
    match axis with
    | .x_axis => { self.priv with rxang := angle, rxy := y, rxz := z }
    | .y_axis => { self.priv with ryang := angle, ryx := x, ryz := z }
    | .z_axis => { self.priv with rzang := angle, rzx := x, rzy := y }
  { actor := { self with priv := priv }
    notified := []
    redraw := CLUTTER_ACTOR_IS_VISIBLE self
    resort := false }

/-- `clutter_actor_set_clip`: stores the clip rectangle, sets `has_clip`,
and notifies `has-clip` and `clip` unconditionally (no guard, no
redraw).  Direct translation of the C. -/
def clutter_actor_set_clip (self : ClutterActor)
    (xoff yoff width height : Int) : SetterResult where
  actor :=
    { self with priv :=
      { self.priv with clip := ⟨xoff, yoff, width, height⟩, has_clip := true } }
  notified := ["has-clip", "clip"]
  redraw := false
  resort := false

/-- `clutter_actor_set_anchor_point`: stores the device-unit anchor point
converted to ClutterUnits; nothing else.  Direct translation of the C. -/
def clutter_actor_set_anchor_point (self : ClutterActor)
    (anchor_x anchor_y : Int) : SetterResult where
  actor :=
    { self with priv :=
      { self.priv with
          anchor_x := CLUTTER_UNITS_FROM_DEVICE anchor_x
          anchor_y := CLUTTER_UNITS_FROM_DEVICE anchor_y } }
  notified := []
  redraw := false
  resort := false

/-- `clutter_actor_set_anchor_pointu`: stores the anchor point given
directly in ClutterUnits; nothing else.  Direct translation of the C. -/
def clutter_actor_set_anchor_pointu (self : ClutterActor)
    (anchor_x anchor_y : Int) : SetterResult where
  actor :=
    { self with priv :=
      { self.priv with anchor_x := anchor_x, anchor_y := anchor_y } }
  notified := []
  redraw := false
  resort := false

/-- A concrete freshly initialised actor (the `clutter_actor_init`
defaults: zero geometry, full opacity, identity scale, no clip), shown
as realized and mapped. -/
def sample_actor : ClutterActor where
  priv :=
    { coords := ⟨0, 0, 0, 0⟩
      clip := ⟨0, 0, 0, 0⟩
      has_clip := false
      rxang := 0, ryang := 0, rzang := 0
      rzx := 0, rzy := 0, rxy := 0, rxz := 0, ryx := 0, ryz := 0
      z := 0
      opacity := 255
      scale_x := CFX_ONE, scale_y := CFX_ONE
      id := 0
      anchor_x := 0, anchor_y := 0 }
  realized := true
  mapped := true

/-! ## C8: redraw coalescing (clutter_actor_queue_redraw,
redraw_update_idle)

The main-context scheduling state: the pending-repaint token
`update_idle`, the number of idle repaint callbacks currently registered
with the main loop, and the main loop's source-id counter. -/

/-- The scheduler state observed by redraw coalescing. -/
structure SchedState where
  update_idle : Nat
  pending : Nat
  next_source : Nat
deriving DecidableEq, Repr

/-- `clutter_actor_queue_redraw`: registers an idle repaint callback only
when the pending token `ctx->update_idle` is zero, storing the fresh
(positive) source id in the token.  The actor argument only names the
redraw in debug output.  Direct translation of the C. -/
def clutter_actor_queue_redraw (self : ClutterActor) (ctx : SchedState) :
    SchedState :=
  if ctx.update_idle = 0 then
    { update_idle := ctx.next_source + 1
      pending := ctx.pending + 1
      next_source := ctx.next_source + 1 }
  else
    ctx

/-- `redraw_update_idle`: the registered idle callback.  It removes the
pending source, clears the token, repaints, and returns FALSE so the
main loop drops the fired source.  Direct translation of the C; the
caller (the main loop) only invokes it when a callback is registered. -/
def redraw_update_idle (ctx : SchedState) : SchedState :=
  { ctx with update_idle := 0, pending := ctx.pending - 1 }

/-- One scheduler event: an actor queueing a redraw, or the main loop
firing the registered idle callback. -/
inductive SchedEvent where
  | queue_redraw (self : ClutterActor)
  | fire_idle
deriving Repr

/-- The scheduler transition: the idle callback can only fire when one is
registered. -/
def sched_step (s : SchedState) : SchedEvent → SchedState
  | .queue_redraw a => clutter_actor_queue_redraw a s
  | .fire_idle => if s.pending = 0 then s else redraw_update_idle s

/-- The initial scheduler state: no token, no registered callback. -/
def sched_init : SchedState := ⟨0, 0, 0⟩

/-- The coalescing invariant: at most one repaint callback is registered,
and one is registered exactly when the token is set. -/
def SchedInv (s : SchedState) : Prop :=
  s.pending ≤ 1 ∧ (s.update_idle ≠ 0 ↔ s.pending = 1)

/-! ## C9: clutter_actor_set_parent

The tree-linkage view of an actor: its unique id, parent link and
flags.  The global identifier table is the list of registered gids. -/

/-- An actor as seen by the parenting code. -/
structure ActorNode where
  id : Nat
  parent_actor : Option Nat
  toplevel : Bool
  realized : Bool
  mapped : Bool
deriving DecidableEq, Repr

/-- `CLUTTER_ACTOR_IS_VISIBLE` on the tree-linkage view. -/
def ActorNode.visible (a : ActorNode) : Bool := a.realized && a.mapped

/-- The observable outcome of `clutter_actor_set_parent`: the possibly
updated child, the global identifier table, the number of diagnostics
emitted, the signals emitted on the child, and whether a redraw was
queued. -/
structure SetParentResult where
  self : ActorNode
  hash : List Nat
  diagnostics : Nat
  signals : List String
  redraw : Bool
deriving DecidableEq, Repr

/-- `clutter_actor_set_parent`: rejects (diagnostic, no-op) a child equal
to the parent, a child that already has a parent, and a toplevel child;
otherwise registers the child's gid in the global table, links the
parent, emits parent-set, realizes the child if the parent is realized,
and queues a redraw if parent and child are both visible.  Direct
translation of the C. -/
def clutter_actor_set_parent (hash : List Nat) (self parent : ActorNode) :
    SetParentResult :=
  if self.id = parent.id then
    { self := self, hash := hash, diagnostics := 1, signals := [], redraw := false }
  else if self.parent_actor ≠ none then
    { self := self, hash := hash, diagnostics := 1, signals := [], redraw := false }
  else if self.toplevel then
    { self := self, hash := hash, diagnostics := 1, signals := [], redraw := false }
  else
    let hash' := self.id :: hash
    let self₁ := { self with parent_actor := some parent.id }
    let self₂ := if parent.realized then { self₁ with realized := true } else self₁
    { self := self₂
      hash := hash'
      diagnostics := 0
      signals := ["parent-set"]
      redraw := parent.visible && self₂.visible }

/-! ## Theorems -/

lemma scaleMat_one : scaleMat CFX_ONE CFX_ONE = 1 := by
  unfold scaleMat CFX_ONE
  ext i j
  fin_cases i <;> fin_cases j <;>
    simp [Matrix.one_apply, Matrix.vecHead, Matrix.vecTail]

lemma spec_root_to_node_ops_append (l : List ClutterActorPrivate)
    (p : ClutterActorPrivate) :
    spec_root_to_node_ops (l ++ [p]) =
      spec_root_to_node_ops l ++
        clutter_actor_apply_modelview_transform p (!l.isEmpty) := by
  cases l with
  | nil => simp [spec_root_to_node_ops]
  | cons r rest => simp [spec_root_to_node_ops]

/-- C1: the per-node composer issues exactly the claimed sequence —
parent-gated box-origin translate, scale, parent-and-nonzero-gated anchor
translate, the three pivoted rotations (each gated on its angle), the
depth translate, then the clip render-state push.  The code skips the
scale call when both factors are identity; since an identity scale
denotes the identity matrix, the issued sequence denotes the same
transform as the claim's sequence under every backend interpretation of
rotation and clip. -/
theorem transform_composer_matches_spec
    (rotI : Int → Int → Int → Int → Mat4) (clipI : ClutterGeometry → Mat4)
    (priv : ClutterActorPrivate) (hasParent : Bool) :
    denoteOps rotI clipI
        (clutter_actor_apply_modelview_transform priv hasParent) =
      denoteOps rotI clipI (spec_transform_ops priv hasParent) := by
  unfold clutter_actor_apply_modelview_transform spec_transform_ops denoteOps
  simp only [List.map_append, List.prod_append]
  have hscale :
      (List.map (interpOp rotI clipI)
        (if priv.scale_x ≠ CFX_ONE ∨ priv.scale_y ≠ CFX_ONE then
          [CoglOp.scale priv.scale_x priv.scale_y] else [])).prod =
      (List.map (interpOp rotI clipI)
        [CoglOp.scale priv.scale_x priv.scale_y]).prod := by
    by_cases h : priv.scale_x ≠ CFX_ONE ∨ priv.scale_y ≠ CFX_ONE
    · rw [if_pos h]
    · rw [if_neg h]
      push_neg at h
      obtain ⟨h1, h2⟩ := h
      simp [h1, h2, interpOp, scaleMat_one]
  rw [hscale]

/-- C2: the recursive accumulator applies the parent's full accumulated
transform before the actor's own composer, and over the whole chain this
yields root-to-node application order: the accumulated sequence is the
concatenation of the composers along the root-first path, the root
composed without a parent and every descendant with one. -/
theorem transform_recursive_root_to_node :
    (∀ (p : ClutterActorPrivate) (ps : List ClutterActorPrivate),
      clutter_actor_apply_modelview_transform_recursive (p :: ps) =
        clutter_actor_apply_modelview_transform_recursive ps ++
          clutter_actor_apply_modelview_transform p (!ps.isEmpty)) ∧
    (∀ chain : List ClutterActorPrivate,
      clutter_actor_apply_modelview_transform_recursive chain =
        spec_root_to_node_ops chain.reverse) := by
  refine ⟨fun p ps => rfl, fun chain => ?_⟩
  induction chain with
  | nil => rfl
  | cons p ps ih =>
    rw [clutter_actor_apply_modelview_transform_recursive, ih,
      List.reverse_cons, spec_root_to_node_ops_append]
    cases ps with
    | nil => rfl
    | cons a as =>
      have h : ∀ l : List ClutterActorPrivate, (l ++ [a]).isEmpty = false := by
        intro l
        cases l <;> rfl
      simp [List.reverse_cons, h]

/-- C4: the effective opacity returned by `clutter_actor_get_opacity` is
the stepwise multiplicative chain `parent_effective * own / 255`
(the code's guard `parent_effective ≠ 0xff` is only a shortcut, since
`255 * own / 255 = own`), and on the 3-level chain with stored opacities
255 (parent), 128 (middle), 255 (leaf) the leaf's effective opacity
is 128. -/
theorem get_opacity_is_multiplicative_chain :
    (∀ (own : Nat) (ancestors : List Nat),
      clutter_actor_get_opacity own ancestors =
        spec_effective_opacity own ancestors) ∧
    clutter_actor_get_opacity 255 [128, 255] = 128 := by
  constructor
  · intro own ancestors
    induction ancestors generalizing own with
    | nil => rfl
    | cons p ps ih =>
      simp only [clutter_actor_get_opacity, spec_effective_opacity, ih]
      by_cases h : spec_effective_opacity p ps = 255
      · simp [h, Nat.mul_div_cancel_left]
      · simp [h]
  · decide

/-- C5: pick-color round trip.  For channel depths (8,8,8), decoding the
RGB triple produced for any identifier below 2^24 recovers the
identifier exactly. -/
theorem pick_encode_decode_roundtrip (id : Nat) (h : id < 2 ^ 24) :
    spec_pick_decode 8 8 8 (clutter_pick_encode 8 8 8 id) = id := by
  simp only [clutter_pick_encode, spec_pick_decode]
  have h255 : (255 : Nat) = 2 ^ 8 - 1 := by norm_num
  norm_num [Nat.shiftRight_eq_div_pow, Nat.shiftLeft_eq]
  rw [h255]
  simp only [Nat.and_pow_two_sub_one_eq_mod]
  omega

/-- C5 witness: the round trip recovers the identifiers 0, 1, 2^20 and
2^24 - 1 named by the spec. -/
theorem pick_encode_decode_roundtrip_witness :
    spec_pick_decode 8 8 8 (clutter_pick_encode 8 8 8 0) = 0 ∧
    spec_pick_decode 8 8 8 (clutter_pick_encode 8 8 8 1) = 1 ∧
    spec_pick_decode 8 8 8 (clutter_pick_encode 8 8 8 (2 ^ 20)) = 2 ^ 20 ∧
    spec_pick_decode 8 8 8 (clutter_pick_encode 8 8 8 (2 ^ 24 - 1)) = 2 ^ 24 - 1 :=
  ⟨pick_encode_decode_roundtrip 0 (by decide),
   pick_encode_decode_roundtrip 1 (by decide),
   pick_encode_decode_roundtrip (2 ^ 20) (by decide),
   pick_encode_decode_roundtrip (2 ^ 24 - 1) (by decide)⟩

/-- C3: `clutter_actor_get_vertices` computes the four local corners
`(0,0)`, `(w,0)`, `(0,h)`, `(w,h)` of the box (extents `w = x2-x1`,
`h = y2-y1`), pushes each independently through the accumulated
modelview matrix, then the projection matrix, then the device rescale,
and returns them in the fixed index order top-left `v0 = (x1,y1)`,
top-right `v1 = (x2,y1)`, bottom-left `v2 = (x1,y2)`, bottom-right
`v3 = (x2,y2)`. -/
theorem get_vertices_corner_pipeline (mtx mtx_p : Nat → Int)
    (vp : ClutterViewport) (coords : ClutterActorBox) :
    clutter_actor_get_vertices mtx mtx_p vp coords =
      { v0 := spec_corner_to_device mtx mtx_p vp (0, 0)
        v1 := spec_corner_to_device mtx mtx_p vp (coords.x2 - coords.x1, 0)
        v2 := spec_corner_to_device mtx mtx_p vp (0, coords.y2 - coords.y1)
        v3 := spec_corner_to_device mtx mtx_p vp
          (coords.x2 - coords.x1, coords.y2 - coords.y1) } := rfl

/-- C6: in the non-capture phase the general `event` signal is emitted
first and the type-specific signal (from the fixed mapping table) is
emitted exactly when the general signal returned unhandled and the type
has a mapped signal, the result being the outcome of the last emission;
in the capture phase only `captured-event` is emitted and its result
returned. -/
theorem event_dispatch_general_then_specific (emit : ActorSignal → Bool)
    (t : ClutterEventType) :
    clutter_actor_event emit t true =
      (emit ActorSignal.captured_event, [ActorSignal.captured_event]) ∧
    clutter_actor_event emit t false =
      ((if emit ActorSignal.event then true
        else ((signal_for_event_type t).map emit).getD false),
       ActorSignal.event ::
         (if emit ActorSignal.event then []
          else (signal_for_event_type t).toList)) := by
  refine ⟨rfl, ?_⟩
  by_cases h : emit ActorSignal.event <;>
    cases ht : signal_for_event_type t <;>
      simp [clutter_actor_event, h, ht]

/-- C7 counterexample: on a visible actor whose stored scale is already
the identity, `clutter_actor_set_scalex` with that same stored value
still queues a redraw and still emits the `scale-x`/`scale-y`
notifications, so not every setter is a no-op on an unchanged value. -/
theorem scale_setter_not_idempotent :
    sample_actor.priv.scale_x = CFX_ONE ∧
    sample_actor.priv.scale_y = CFX_ONE ∧
    CLUTTER_ACTOR_IS_VISIBLE sample_actor = true ∧
    (clutter_actor_set_scalex sample_actor CFX_ONE CFX_ONE).redraw = true ∧
    (clutter_actor_set_scalex sample_actor CFX_ONE CFX_ONE).notified =
      ["scale-x", "scale-y"] :=
  ⟨rfl, rfl, rfl, rfl, rfl⟩

/-- C7 (amended): only the geometry setter (`request_coords`) and the
depth setter are idempotent — invoked with the currently stored value
they change nothing, queue no redraw and emit no notification; the
scale, opacity, rotation and clip setters act unconditionally: with an
unchanged value the scale, opacity and rotation setters still queue a
redraw whenever the actor is visible, and the scale and clip setters
still emit their property notifications. -/
theorem setter_idempotence_amended :
    (∀ (self : ClutterActor) (box : ClutterActorBox),
      box = self.priv.coords →
      clutter_actor_request_coords self box =
        { actor := self, notified := [], redraw := false, resort := false }) ∧
    (∀ (self : ClutterActor) (pc : Bool),
      clutter_actor_set_depth self self.priv.z pc =
        { actor := self, notified := [], redraw := false, resort := false }) ∧
    (∀ self : ClutterActor,
      (clutter_actor_set_scalex self self.priv.scale_x
          self.priv.scale_y).notified = ["scale-x", "scale-y"] ∧
      (clutter_actor_set_scalex self self.priv.scale_x
          self.priv.scale_y).redraw = CLUTTER_ACTOR_IS_VISIBLE self) ∧
    (∀ self : ClutterActor,
      (clutter_actor_set_opacity self self.priv.opacity).redraw =
        CLUTTER_ACTOR_IS_VISIBLE self) ∧
    (∀ (self : ClutterActor) (axis : ClutterRotateAxis) (angle x y z : Int),
      (clutter_actor_set_rotationx self axis angle x y z).redraw =
        CLUTTER_ACTOR_IS_VISIBLE self) ∧
    (∀ self : ClutterActor,
      (clutter_actor_set_clip self self.priv.clip.x self.priv.clip.y
          self.priv.clip.width self.priv.clip.height).notified =
        ["has-clip", "clip"]) := by
  refine ⟨?_, ?_, fun s => ⟨rfl, rfl⟩, fun s => rfl, fun s a an x y z => rfl,
    fun s => rfl⟩
  · intro self box h
    subst h
    simp [clutter_actor_request_coords]
  · intro self pc
    simp [clutter_actor_set_depth]

/-- C7 witness: on the concrete freshly initialised actor, requesting the
currently stored coordinates is a complete no-op. -/
theorem setter_idempotence_amended_witness :
    clutter_actor_request_coords sample_actor sample_actor.priv.coords =
      { actor := sample_actor, notified := [], redraw := false,
        resort := false } :=
  setter_idempotence_amended.1 sample_actor sample_actor.priv.coords rfl

lemma queue_redraw_token_set (a : ClutterActor) (s : SchedState)
    (h : s.update_idle ≠ 0) : clutter_actor_queue_redraw a s = s := by
  simp [clutter_actor_queue_redraw, h]

lemma foldl_queue_redraw_noop (l : List ClutterActor) (s : SchedState)
    (h : s.update_idle ≠ 0) :
    l.foldl (fun st a => clutter_actor_queue_redraw a st) s = s := by
  induction l with
  | nil => rfl
  | cons a rest ih =>
    rw [List.foldl_cons, queue_redraw_token_set a s h, ih]

lemma sched_step_preserves_inv (s : SchedState) (e : SchedEvent)
    (h : SchedInv s) : SchedInv (sched_step s e) := by
  cases e with
  | queue_redraw a =>
    simp only [sched_step, clutter_actor_queue_redraw]
    split
    · rename_i hz
      unfold SchedInv at h ⊢
      simp only at *
      omega
    · exact h
  | fire_idle =>
    simp only [sched_step]
    split
    · exact h
    · rename_i hz
      unfold SchedInv at h
      unfold SchedInv redraw_update_idle
      simp only at *
      omega

lemma foldl_sched_step_inv (l : List SchedEvent) (s : SchedState)
    (h : SchedInv s) : SchedInv (l.foldl sched_step s) := by
  induction l generalizing s with
  | nil => exact h
  | cons e rest ih =>
    rw [List.foldl_cons]
    exact ih _ (sched_step_preserves_inv s e h)

/-- C8: redraw coalescing.  `queue_redraw` registers a new callback only
when the pending token is zero; from a state with no pending callback,
any nonempty burst of `queue_redraw` calls on any actors leaves exactly
one registered repaint callback; the callback clears the token when it
runs; and the invariant "at most one registered repaint callback, one
exactly when the token is set" holds in every state reachable from the
initial state. -/
theorem redraw_coalescing :
    (∀ (a : ClutterActor) (s : SchedState), s.update_idle ≠ 0 →
      clutter_actor_queue_redraw a s = s) ∧
    (∀ l : List ClutterActor, l ≠ [] →
      (l.foldl (fun st a => clutter_actor_queue_redraw a st)
        sched_init).pending = 1) ∧
    (∀ s : SchedState, (redraw_update_idle s).update_idle = 0) ∧
    (∀ events : List SchedEvent,
      SchedInv (events.foldl sched_step sched_init)) := by
  refine ⟨queue_redraw_token_set, ?_, fun s => rfl, ?_⟩
  · intro l hne
    cases l with
    | nil => exact absurd rfl hne
    | cons a rest =>
      rw [List.foldl_cons]
      have h1 : clutter_actor_queue_redraw a sched_init =
          ⟨1, 1, 1⟩ := rfl
      rw [h1, foldl_queue_redraw_noop rest ⟨1, 1, 1⟩ (by decide)]
  · intro events
    exact foldl_sched_step_inv events sched_init (by constructor <;> simp [sched_init])

/-- C8 witness: five redraw requests from five property mutations within
one tick collapse to exactly one registered repaint callback. -/
theorem redraw_coalescing_witness :
    ([sample_actor, sample_actor, sample_actor, sample_actor,
        sample_actor].foldl (fun st a => clutter_actor_queue_redraw a st)
      sched_init).pending = 1 :=
  redraw_coalescing.2.1
    [sample_actor, sample_actor, sample_actor, sample_actor, sample_actor]
    (by simp)

/-- C9: calling `clutter_actor_set_parent` on an actor that already has a
parent or is toplevel emits one diagnostic and is otherwise a complete
no-op: the actor, the global identifier table, the emitted signals and
the redraw queue are all left untouched, and the call returns normally
(it is a total function, nothing is propagated). -/
theorem set_parent_error_noop (hash : List Nat) (self parent : ActorNode)
    (h : self.parent_actor ≠ none ∨ self.toplevel = true) :
    clutter_actor_set_parent hash self parent =
      { self := self, hash := hash, diagnostics := 1, signals := [],
        redraw := false } := by
  unfold clutter_actor_set_parent
  by_cases hid : self.id = parent.id
  · simp [hid]
  · rcases h with h | h
    · simp [hid, h]
    · by_cases hp : self.parent_actor ≠ none
      · simp [hid, hp]
      · simp [hid, hp, h]

/-- C9 witness: re-parenting a concrete already-parented actor is
rejected as a diagnosed no-op. -/
theorem set_parent_error_noop_witness :
    clutter_actor_set_parent [7]
        ⟨1, some 0, false, false, false⟩ ⟨2, none, false, true, true⟩ =
      { self := ⟨1, some 0, false, false, false⟩, hash := [7],
        diagnostics := 1, signals := [], redraw := false } :=
  set_parent_error_noop [7] ⟨1, some 0, false, false, false⟩
    ⟨2, none, false, true, true⟩ (Or.inl (by decide))

/-- C10: both anchor-point setters modify only the stored
`anchor_x`/`anchor_y` fields (the pixel variant converting to
ClutterUnits first) and, for every actor and every new anchor value,
emit no property notification and queue no redraw. -/
theorem set_anchor_point_silent (self : ClutterActor) (ax ay : Int) :
    clutter_actor_set_anchor_point self ax ay =
      { actor := { self with priv :=
          { self.priv with
              anchor_x := CLUTTER_UNITS_FROM_DEVICE ax
              anchor_y := CLUTTER_UNITS_FROM_DEVICE ay } }
        notified := [], redraw := false, resort := false } ∧
    clutter_actor_set_anchor_pointu self ax ay =
      { actor := { self with priv :=
          { self.priv with anchor_x := ax, anchor_y := ay } }
        notified := [], redraw := false, resort := false } :=
  ⟨rfl, rfl⟩
